import Mathlib

/-!
Shallow embedding of the `check-appointment-reminders` Supabase edge
function (src/unnamed/part_007) of the BITSTORM repository.

The handler reads today's scheduled appointments, classifies each
(appointment, tier) pair against the tier windows 60/30/10 minutes with
a ±1-minute tolerance, and for each due pair attempts an email POST and
an in-app notification insert.

Modelling decisions, each traceable to the source:
  * `appointment_time` is a "HH:MM" string in the source, parsed by
    `split(':').map(Number)` (line 52); it is embedded as the parsed
    hour/minute pair.
  * `now.toISOString().split('T')[0]` (line 20) yields the UTC calendar
    date, while `now.getHours()` / `now.getMinutes()` (lines 23-24)
    yield server-local wall-clock time.  The `Clock` therefore carries
    the UTC date, the server-local date, and the local hour/minute;
    the handler's code reads `utcDate`, `localHour`, `localMinute`,
    and never reads `localDate`.
  * supabase-js query-builder calls resolve to `{ data, error }` and do
    not throw: the candidate fetch error is re-thrown explicitly
    (line 43) and caught by the outer handler (lines 135-141); the
    `.single()` lookups and the notifications `insert` have their
    results ignored or defaulted, so lookup/insert failures do not
    throw.  The email `fetch` is wrapped in `try/catch` and its
    non-2xx result is only logged (lines 83-111).
  * The loop body (lines 57-126) only appends to `sentReminders`,
    performs reads of tables never written during the run, and inserts
    notification rows that are never read back, so iterations are
    independent; the run is embedded as concatenation of per-pair
    outputs in source order.
-/

/-- An `appointments` row as selected by the query at lines 29-39.
`appointment_time` ("HH:MM") is embedded as its parsed hour/minute. -/
structure Appointment where
  id : String
  patient_id : String
  doctor_id : String
  appointment_date : String
  appointment_time_hour : Nat
  appointment_time_minute : Nat
  status : String
deriving Repr, DecidableEq

/-- A `notifications` row as built by the insert at lines 115-122. -/
structure Notification where
  user_id : String
  title : String
  message : String
  type : String
  related_id : String
  action_url : String
deriving Repr, DecidableEq

/-- The JSON payload POSTed to `send-email` (lines 84-92). -/
structure EmailPayload where
  type : String
  -- the source field is `to`; `to` is a Lean keyword
  to_email : String
  patientName : String
  doctorName : String
  date : String
  time_hour : Nat
  time_minute : Nat
  reminderMinutes : Nat
deriving Repr, DecidableEq

/-- Outcome of one email POST: 2xx, non-2xx (logged at line 105), or a
thrown exception (caught at line 109).  The code reacts to all three
identically apart from the log line. -/
inductive EmailResult where
  | ok : EmailResult
  | httpError : EmailResult
  | exn : EmailResult
deriving Repr, DecidableEq

/-- The wall clock at invocation time.  `utcDate` is
`now.toISOString().split('T')[0]` (line 20); `localHour`/`localMinute`
are `now.getHours()`/`now.getMinutes()` (lines 23-24); `localDate` is
the server-local calendar date, which the handler never reads. -/
structure Clock where
  utcDate : String
  localDate : String
  localHour : Nat
  localMinute : Nat
deriving Repr, DecidableEq

/-- The external store: appointment rows, the two name tables, the auth
email directory, the notification rows, and whether the candidate fetch
fails (`fetchError` at line 41 carries `error.message`). -/
structure Database where
  appointments : List Appointment
  profiles : List (String × String)
  doctors : List (String × String)
  authEmails : List (String × String)
  notifications : List Notification
  fetchError : Option String
deriving Repr, DecidableEq

/-- Nondeterministic outcomes of the external calls: the result of the
email POST and whether the notifications insert is accepted by the
store, per (appointment id, tier). -/
structure World where
  emailResult : String → Nat → EmailResult
  insertOk : String → Nat → Bool

/-- Key lookup in a two-column table (`.eq(...).single()`). -/
def lookupAssoc (l : List (String × String)) (k : String) : Option String :=
  (l.find? (fun p => p.1 == k)).map (fun p => p.2)

/-- JavaScript `x || d` on an optional string: the default replaces a
missing value and the (falsy) empty string alike. -/
def jsOr (o : Option String) (d : String) : String :=
  match o with
  | some s => if s = "" then d else s
  | none => d

/-- The tier constants `const reminderMinutes = [60, 30, 10]`
(line 48). -/
def reminderMinutes : List Nat := [60, 30, 10]

/-- Lines 52-55: `appointmentTimeInMinutes - currentTimeInMinutes`,
both as minutes since midnight; may be negative. -/
def minutesUntilAppointment (a : Appointment) (c : Clock) : Int :=
  ((a.appointment_time_hour * 60 + a.appointment_time_minute : Nat) : Int)
    - ((c.localHour * 60 + c.localMinute : Nat) : Int)

/-- The window check at line 59:
`minutesUntilAppointment >= reminderTime - 1 && minutesUntilAppointment <= reminderTime + 1`. -/
def tierDue (reminderTime : Nat) (minutesUntil : Int) : Bool :=
  decide ((reminderTime : Int) - 1 ≤ minutesUntil)
    && decide (minutesUntil ≤ (reminderTime : Int) + 1)

/-- The notification row built at lines 115-122. -/
def mkNotification (a : Appointment) (reminderTime : Nat) (doctorName : String) :
    Notification :=
  { user_id := a.patient_id
    title := "Appointment in " ++ toString reminderTime ++ " minutes"
    message := "Your appointment with Dr. " ++ doctorName ++ " starts in "
                 ++ toString reminderTime ++ " minutes."
    type := "appointment_reminder"
    related_id := a.id
    action_url := "/appointments" }

/-- The email payload built at lines 84-92. -/
def mkEmailPayload (a : Appointment) (reminderTime : Nat)
    (patientEmail patientName doctorName : String) : EmailPayload :=
  { type := "appointment_reminder"
    to_email := patientEmail
    patientName := patientName
    doctorName := doctorName
    date := a.appointment_date
    time_hour := a.appointment_time_hour
    time_minute := a.appointment_time_minute
    reminderMinutes := reminderTime }

/-- The observable effects produced by part of a run: insert calls made
(`insertAttempts`), rows the store accepted (`newNotifs`), email POSTs
attempted (`emailAttempts`), `sentReminders` pushes (`sent`), and
console log lines for email outcomes (`log`). -/
structure PairOutput where
  insertAttempts : List Notification
  newNotifs : List Notification
  emailAttempts : List EmailPayload
  sent : List String
  log : List String
deriving Repr, DecidableEq

def PairOutput.empty : PairOutput := ⟨[], [], [], [], []⟩

def PairOutput.append (x y : PairOutput) : PairOutput :=
  ⟨x.insertAttempts ++ y.insertAttempts, x.newNotifs ++ y.newNotifs,
   x.emailAttempts ++ y.emailAttempts, x.sent ++ y.sent, x.log ++ y.log⟩

/-- The body of the tier loop, lines 57-126, for one
(appointment, tier) pair.  When the window check fails the body does
nothing; otherwise it resolves names and email, attempts the email POST
when an address was resolved (lines 81-112), unconditionally attempts
the notification insert (lines 115-122), and pushes onto
`sentReminders` (line 124). -/
def processPair (w : World) (db : Database) (c : Clock)
    (a : Appointment) (reminderTime : Nat) : PairOutput :=
  if tierDue reminderTime (minutesUntilAppointment a c) then
    let profileName := lookupAssoc db.profiles a.patient_id
    let doctorName := jsOr (lookupAssoc db.doctors a.doctor_id) "Doctor"
    let patientEmail := lookupAssoc db.authEmails a.patient_id
    -- `if (patientEmail)`: a missing or (falsy) empty address skips the email
    let emailAttempts :=
      match patientEmail with
      | some em =>
          if em = "" then []
          else [mkEmailPayload a reminderTime em (jsOr profileName "Patient") doctorName]
      | none => []
    let log :=
      match patientEmail with
      | some em =>
          if em = "" then []
          else
            match w.emailResult a.id reminderTime with
            | EmailResult.ok => ["Email reminder sent to " ++ em]
            | EmailResult.httpError => ["Email reminder failed for " ++ em]
            | EmailResult.exn => ["Error sending email reminder"]
      | none => []
    let row := mkNotification a reminderTime doctorName
    let newNotifs := if w.insertOk a.id reminderTime then [row] else []
    { insertAttempts := [row]
      newNotifs := newNotifs
      emailAttempts := emailAttempts
      sent := [a.id ++ "_" ++ toString reminderTime ++ "min"]
      log := log }
  else PairOutput.empty

/-- Concatenate the outputs of independent loop iterations, in source
order. -/
def collectOut {α : Type} (f : α → PairOutput) : List α → PairOutput
  | [] => PairOutput.empty
  | x :: rest => (f x).append (collectOut f rest)

/-- The inner `for (const reminderTime of reminderMinutes)` loop
(lines 57-126) for one appointment. -/
def processAppointment (w : World) (db : Database) (c : Clock)
    (a : Appointment) : PairOutput :=
  collectOut (processPair w db c a) reminderMinutes

/-- The candidate query at lines 29-39:
`appointment_date = todayDate AND status = 'scheduled'`, where
`todayDate` is the UTC calendar date (line 20). -/
def candidatesQuery (c : Clock) (db : Database) : List Appointment :=
  db.appointments.filter
    (fun a => a.appointment_date == c.utcDate && a.status == "scheduled")

/-- Modelled from the spec (Step 1), for comparison only: candidates
whose `date` equals the current calendar date "using the server's local
date" and whose status is `scheduled`. -/
def candidatesSpecLocal (c : Clock) (db : Database) : List Appointment :=
  db.appointments.filter
    (fun a => a.appointment_date == c.localDate && a.status == "scheduled")

/-- The JSON response body: `{ success: true, remindersSent: n }` on
200 or `{ error: message }` on 500 (lines 131-140). -/
inductive Body where
  | success (remindersSent : Nat) : Body
  | failure (error : String) : Body
deriving Repr, DecidableEq

/-- Everything observable about one invocation. -/
structure RunResult where
  status : Nat
  body : Body
  db : Database
  out : PairOutput
deriving Repr, DecidableEq

/-- The whole handler (lines 14-141).  A candidate-fetch error is
thrown and caught by the outer handler, yielding a 500 before any loop
iteration runs; otherwise the nested loops run over the candidates and
the handler returns 200 with `sentReminders.length`. -/
def checkAppointmentReminders (w : World) (c : Clock) (db : Database) :
    RunResult :=
  match db.fetchError with
  | some msg =>
      { status := 500, body := Body.failure msg, db := db, out := PairOutput.empty }
  | none =>
      let out := collectOut (processAppointment w db c) (candidatesQuery c db)
      { status := 200
        body := Body.success out.sent.length
        db := { db with notifications := db.notifications ++ out.newNotifs }
        out := out }

/-! ### Concrete fixtures for witnesses and counterexamples -/

/-- A world where every email POST returns 2xx and every insert is
accepted. -/
def wTrue : World := ⟨fun _ _ => EmailResult.ok, fun _ _ => true⟩

/-- A world where every email POST returns 2xx but the notification
store rejects every insert. -/
def wNoInsert : World := ⟨fun _ _ => EmailResult.ok, fun _ _ => false⟩

/-- An appointment today at 10:00, status `scheduled`. -/
def apt1 : Appointment :=
  ⟨"apt1", "pat1", "doc1", "2026-01-01", 10, 0, "scheduled"⟩

/-- An appointment today at 15:00, status `scheduled`. -/
def apt2 : Appointment :=
  ⟨"apt2", "pat2", "doc2", "2026-01-01", 15, 0, "scheduled"⟩

/-- An appointment today at 20:00, status `scheduled`. -/
def apt3 : Appointment :=
  ⟨"apt3", "pat3", "doc3", "2026-01-01", 20, 0, "scheduled"⟩

/-- A clock at 09:00, UTC date and local date agreeing. -/
def cEx : Clock := ⟨"2026-01-01", "2026-01-01", 9, 0⟩

/-- A store with one appointment due for the 60-minute tier at `cEx`,
with resolvable names and email. -/
def dbEx : Database :=
  ⟨[apt1], [("pat1", "Alice")], [("doc1", "Bob")], [("pat1", "alice@example.com")],
   [], none⟩

/-- Like `dbEx` but with three candidates of which only `apt1` is due. -/
def dbEx3 : Database :=
  ⟨[apt1, apt2, apt3], [("pat1", "Alice")], [("doc1", "Bob")],
   [("pat1", "alice@example.com")], [], none⟩

/-- Like `dbEx` but the patient and doctor name lookups fail. -/
def dbNoNames : Database :=
  ⟨[apt1], [], [], [("pat1", "alice@example.com")], [], none⟩

/-- Like `dbEx` but the patient email lookup fails. -/
def dbNoEmail : Database :=
  ⟨[apt1], [("pat1", "Alice")], [("doc1", "Bob")], [], [], none⟩

/-- A store whose candidate fetch fails. -/
def dbFail : Database :=
  ⟨[apt1], [("pat1", "Alice")], [("doc1", "Bob")], [("pat1", "alice@example.com")],
   [], some "connection refused"⟩

/-- A clock just before UTC midnight: the server-local date is still
2026-01-01 while `toISOString` already yields 2026-01-02. -/
def cTz : Clock := ⟨"2026-01-02", "2026-01-01", 22, 0⟩

/-- An appointment on the server-local date 2026-01-01 at 23:00. -/
def aptLocal : Appointment :=
  ⟨"aptL", "pat1", "doc1", "2026-01-01", 23, 0, "scheduled"⟩

/-- A store containing only `aptLocal`. -/
def dbTz : Database := ⟨[aptLocal], [], [], [], [], none⟩

/-! ### Helper lemmas -/

theorem collectOut_cons {α : Type} (f : α → PairOutput) (x : α) (l : List α) :
    collectOut f (x :: l) = (f x).append (collectOut f l) := rfl

theorem collectOut_nil {α : Type} (f : α → PairOutput) :
    collectOut f [] = PairOutput.empty := rfl

/-- Congruence for a projection of `collectOut` that distributes over
`append`. -/
theorem collectOut_proj_congr {α β : Type} (π : PairOutput → List β)
    (happ : ∀ x y, π (x.append y) = π x ++ π y)
    (f g : α → PairOutput) (h : ∀ x, π (f x) = π (g x)) :
    ∀ l : List α, π (collectOut f l) = π (collectOut g l)
  | [] => rfl
  | x :: r => by
      rw [collectOut_cons, collectOut_cons, happ, happ, h,
        collectOut_proj_congr π happ f g h r]

/-- The length of a distributing projection of `collectOut` is the sum
of the per-element lengths. -/
theorem collectOut_proj_length {α β : Type} (π : PairOutput → List β)
    (happ : ∀ x y, π (x.append y) = π x ++ π y)
    (he : π PairOutput.empty = []) (f : α → PairOutput) :
    ∀ l : List α,
      (π (collectOut f l)).length = (l.map (fun x => (π (f x)).length)).sum
  | [] => by simp [collectOut, he]
  | x :: r => by
      rw [collectOut_cons, happ]
      simp [collectOut_proj_length π happ he f r]

/-- Members of a distributing projection of `collectOut` come from some
element of the list. -/
theorem mem_collectOut_proj {α β : Type} (π : PairOutput → List β)
    (happ : ∀ x y, π (x.append y) = π x ++ π y)
    (he : π PairOutput.empty = []) (f : α → PairOutput) (b : β) :
    ∀ l : List α, b ∈ π (collectOut f l) → ∃ x ∈ l, b ∈ π (f x)
  | [], hb => by simp [collectOut, he] at hb
  | x :: r, hb => by
      rw [collectOut_cons, happ, List.mem_append] at hb
      rcases hb with hb | hb
      · exact ⟨x, List.mem_cons_self x r, hb⟩
      · rcases mem_collectOut_proj π happ he f b r hb with ⟨y, hy, hby⟩
        exact ⟨y, List.mem_cons_of_mem x hy, hby⟩

/-- Conversely, a member contributed by some element of the list is in
the projection of `collectOut`. -/
theorem mem_collectOut_of_mem {α β : Type} (π : PairOutput → List β)
    (happ : ∀ x y, π (x.append y) = π x ++ π y)
    (f : α → PairOutput) (b : β) (x : α) :
    ∀ l : List α, x ∈ l → b ∈ π (f x) → b ∈ π (collectOut f l)
  | [], hx, _ => by cases hx
  | y :: r, hx, hb => by
      rw [collectOut_cons, happ, List.mem_append]
      rcases List.mem_cons.mp hx with h | h
      · exact Or.inl (h ▸ hb)
      · exact Or.inr (mem_collectOut_of_mem π happ f b x r h hb)

theorem append_insertAttempts (x y : PairOutput) :
    (x.append y).insertAttempts = x.insertAttempts ++ y.insertAttempts := rfl

theorem append_newNotifs (x y : PairOutput) :
    (x.append y).newNotifs = x.newNotifs ++ y.newNotifs := rfl

theorem append_emailAttempts (x y : PairOutput) :
    (x.append y).emailAttempts = x.emailAttempts ++ y.emailAttempts := rfl

theorem append_sent (x y : PairOutput) :
    (x.append y).sent = x.sent ++ y.sent := rfl

/-- The window check, as a proposition. -/
theorem tierDue_iff (t : Nat) (m : Int) :
    tierDue t m = true ↔ (t : Int) - 1 ≤ m ∧ m ≤ (t : Int) + 1 := by
  simp [tierDue]

/-- The loop body's insert call does not depend on the external
outcomes. -/
theorem processPair_insertAttempts_world (w w' : World) (db : Database)
    (c : Clock) (a : Appointment) (t : Nat) :
    (processPair w db c a t).insertAttempts
      = (processPair w' db c a t).insertAttempts := by
  by_cases h : tierDue t (minutesUntilAppointment a c) <;> simp [processPair, h]

/-- The loop body's email POST does not depend on the external
outcomes. -/
theorem processPair_emailAttempts_world (w w' : World) (db : Database)
    (c : Clock) (a : Appointment) (t : Nat) :
    (processPair w db c a t).emailAttempts
      = (processPair w' db c a t).emailAttempts := by
  by_cases h : tierDue t (minutesUntilAppointment a c) <;> simp [processPair, h]

/-- The loop body's `sentReminders` push does not depend on the
external outcomes. -/
theorem processPair_sent_world (w w' : World) (db : Database)
    (c : Clock) (a : Appointment) (t : Nat) :
    (processPair w db c a t).sent = (processPair w' db c a t).sent := by
  by_cases h : tierDue t (minutesUntilAppointment a c) <;> simp [processPair, h]

/-- The rows the store accepts depend only on the insert outcomes, not
on the email outcomes. -/
theorem processPair_newNotifs_insertOk (e1 e2 : String → Nat → EmailResult)
    (i : String → Nat → Bool) (db : Database) (c : Clock)
    (a : Appointment) (t : Nat) :
    (processPair ⟨e1, i⟩ db c a t).newNotifs
      = (processPair ⟨e2, i⟩ db c a t).newNotifs := by
  by_cases h : tierDue t (minutesUntilAppointment a c) <;> simp [processPair, h]

/-- C1: a reminder tier t ∈ {60, 30, 10} is due for an appointment iff
`minutesUntil` lies in the ±1 window `t - 1 ≤ minutesUntil ≤ t + 1`; in
particular the 60-minute tier is due exactly at `minutesUntil` 59, 60,
61 — hence not at 58 or 62. -/
theorem tier_window_check (a : Appointment) (c : Clock) (t : Nat) :
    (tierDue t (minutesUntilAppointment a c) = true ↔
      (t : Int) - 1 ≤ minutesUntilAppointment a c ∧
        minutesUntilAppointment a c ≤ (t : Int) + 1)
    ∧ (∀ m : Int, tierDue 60 m = true ↔ m = 59 ∨ m = 60 ∨ m = 61) := by
  refine ⟨tierDue_iff t (minutesUntilAppointment a c), fun m => ?_⟩
  rw [tierDue_iff]
  omega

/-- C10: the three tier windows [59,61], [29,31], [9,11] are pairwise
disjoint, so at most one tier is due for any integer `minutesUntil`,
and a negative `minutesUntil` matches no tier. -/
theorem tier_windows_disjoint (m : Int) :
    (reminderMinutes.filter (fun t => tierDue t m)).length ≤ 1
    ∧ ¬(tierDue 60 m = true ∧ tierDue 30 m = true)
    ∧ ¬(tierDue 60 m = true ∧ tierDue 10 m = true)
    ∧ ¬(tierDue 30 m = true ∧ tierDue 10 m = true)
    ∧ (m < 0 → reminderMinutes.filter (fun t => tierDue t m) = []) := by
  by_cases h60 : tierDue 60 m = true <;> by_cases h30 : tierDue 30 m = true <;>
    by_cases h10 : tierDue 10 m = true <;>
      simp only [reminderMinutes, List.filter_cons, List.filter_nil,
        h60, h30, h10, if_true, if_false] <;>
      simp_all [tierDue_iff] <;> omega

/-- C10 witness: at `minutesUntil = -5` no tier is due. -/
theorem tier_windows_disjoint_witness :
    (-5 : Int) < 0 ∧ reminderMinutes.filter (fun t => tierDue t (-5)) = [] :=
  ⟨by decide, (tier_windows_disjoint (-5)).2.2.2.2 (by decide)⟩

/-- C2: if the candidate fetch fails, the run returns HTTP 500 with an
error body, the store is unchanged, no notification insert is attempted
and no email POST is attempted. -/
theorem fetch_failure_aborts (w : World) (c : Clock) (db : Database)
    (msg : String) (h : db.fetchError = some msg) :
    (checkAppointmentReminders w c db).status = 500
    ∧ (checkAppointmentReminders w c db).body = Body.failure msg
    ∧ (checkAppointmentReminders w c db).db = db
    ∧ (checkAppointmentReminders w c db).out.insertAttempts = []
    ∧ (checkAppointmentReminders w c db).out.newNotifs = []
    ∧ (checkAppointmentReminders w c db).out.emailAttempts = [] := by
  simp [checkAppointmentReminders, h, PairOutput.empty]

/-- C2 witness: a concrete failing fetch. -/
theorem fetch_failure_aborts_witness :
    dbFail.fetchError = some "connection refused"
    ∧ ((checkAppointmentReminders wTrue cEx dbFail).status = 500
        ∧ (checkAppointmentReminders wTrue cEx dbFail).body
            = Body.failure "connection refused"
        ∧ (checkAppointmentReminders wTrue cEx dbFail).db = dbFail
        ∧ (checkAppointmentReminders wTrue cEx dbFail).out.insertAttempts = []
        ∧ (checkAppointmentReminders wTrue cEx dbFail).out.newNotifs = []
        ∧ (checkAppointmentReminders wTrue cEx dbFail).out.emailAttempts = []) :=
  ⟨rfl, fetch_failure_aborts wTrue cEx dbFail "connection refused" rfl⟩

/-- C9: the run never mutates appointment rows, name tables or the
email directory, and its only store mutation is appending newly
inserted notification rows — existing notifications are never updated
or deleted. -/
theorem scheduler_store_frame (w : World) (c : Clock) (db : Database) :
    (checkAppointmentReminders w c db).db.appointments = db.appointments
    ∧ (checkAppointmentReminders w c db).db.profiles = db.profiles
    ∧ (checkAppointmentReminders w c db).db.doctors = db.doctors
    ∧ (checkAppointmentReminders w c db).db.authEmails = db.authEmails
    ∧ (checkAppointmentReminders w c db).db.fetchError = db.fetchError
    ∧ (checkAppointmentReminders w c db).db.notifications
        = db.notifications ++ (checkAppointmentReminders w c db).out.newNotifs := by
  cases h : db.fetchError <;> simp [checkAppointmentReminders, h, PairOutput.empty]

/-- C3: failure isolation — the notification inserts performed by a run
are the same whatever the email outcomes; the email POSTs, insert
attempts and `sentReminders` pushes are the same whatever both the
email and insert outcomes.  A failed email never prevents an insert, a
rejected insert never prevents an email, and neither aborts the
remaining appointments or tiers. -/
theorem dispatch_failure_isolation (c : Clock) (db : Database)
    (e1 e2 : String → Nat → EmailResult) (i1 i2 : String → Nat → Bool) :
    (checkAppointmentReminders ⟨e1, i1⟩ c db).out.newNotifs
        = (checkAppointmentReminders ⟨e2, i1⟩ c db).out.newNotifs
    ∧ (checkAppointmentReminders ⟨e1, i1⟩ c db).out.insertAttempts
        = (checkAppointmentReminders ⟨e2, i2⟩ c db).out.insertAttempts
    ∧ (checkAppointmentReminders ⟨e1, i1⟩ c db).out.emailAttempts
        = (checkAppointmentReminders ⟨e2, i2⟩ c db).out.emailAttempts
    ∧ (checkAppointmentReminders ⟨e1, i1⟩ c db).out.sent
        = (checkAppointmentReminders ⟨e2, i2⟩ c db).out.sent := by
  cases hf : db.fetchError with
  | some msg => simp [checkAppointmentReminders, hf]
  | none =>
    simp only [checkAppointmentReminders, hf]
    refine ⟨?_, ?_, ?_, ?_⟩
    · exact collectOut_proj_congr PairOutput.newNotifs append_newNotifs _ _
        (fun a => collectOut_proj_congr PairOutput.newNotifs append_newNotifs _ _
          (fun t => processPair_newNotifs_insertOk e1 e2 i1 db c a t)
          reminderMinutes)
        (candidatesQuery c db)
    · exact collectOut_proj_congr PairOutput.insertAttempts append_insertAttempts _ _
        (fun a => collectOut_proj_congr PairOutput.insertAttempts
          append_insertAttempts _ _
          (fun t => processPair_insertAttempts_world ⟨e1, i1⟩ ⟨e2, i2⟩ db c a t)
          reminderMinutes)
        (candidatesQuery c db)
    · exact collectOut_proj_congr PairOutput.emailAttempts append_emailAttempts _ _
        (fun a => collectOut_proj_congr PairOutput.emailAttempts
          append_emailAttempts _ _
          (fun t => processPair_emailAttempts_world ⟨e1, i1⟩ ⟨e2, i2⟩ db c a t)
          reminderMinutes)
        (candidatesQuery c db)
    · exact collectOut_proj_congr PairOutput.sent append_sent _ _
        (fun a => collectOut_proj_congr PairOutput.sent append_sent _ _
          (fun t => processPair_sent_world ⟨e1, i1⟩ ⟨e2, i2⟩ db c a t)
          reminderMinutes)
        (candidatesQuery c db)

/-- Over any list of tiers, one `sentReminders` push happens per due
tier. -/
theorem collect_tiers_sent_length (w : World) (db : Database) (c : Clock)
    (a : Appointment) :
    ∀ ts : List Nat,
      (collectOut (processPair w db c a) ts).sent.length
        = (ts.filter (fun t => tierDue t (minutesUntilAppointment a c))).length
  | [] => rfl
  | t :: r => by
      by_cases h : tierDue t (minutesUntilAppointment a c) = true <;>
        simp [collectOut_cons, append_sent, processPair, h, List.filter_cons,
          collect_tiers_sent_length w db c a r, PairOutput.empty]

/-- Over any list of tiers, one insert call happens per due tier. -/
theorem collect_tiers_insert_length (w : World) (db : Database) (c : Clock)
    (a : Appointment) :
    ∀ ts : List Nat,
      (collectOut (processPair w db c a) ts).insertAttempts.length
        = (ts.filter (fun t => tierDue t (minutesUntilAppointment a c))).length
  | [] => rfl
  | t :: r => by
      by_cases h : tierDue t (minutesUntilAppointment a c) = true <;>
        simp [collectOut_cons, append_insertAttempts, processPair, h,
          List.filter_cons, collect_tiers_insert_length w db c a r,
          PairOutput.empty]

/-- Over any list of tiers, the store accepts one row per due tier
whose insert outcome is positive. -/
theorem collect_tiers_newNotifs_length (w : World) (db : Database) (c : Clock)
    (a : Appointment) :
    ∀ ts : List Nat,
      (collectOut (processPair w db c a) ts).newNotifs.length
        = ((ts.filter (fun t => tierDue t (minutesUntilAppointment a c))).filter
            (fun t => w.insertOk a.id t)).length
  | [] => rfl
  | t :: r => by
      by_cases h : tierDue t (minutesUntilAppointment a c) = true <;>
        by_cases hi : w.insertOk a.id t = true <;>
          simp [collectOut_cons, append_newNotifs, processPair, h, hi,
            List.filter_cons, collect_tiers_newNotifs_length w db c a r,
            PairOutput.empty]

/-- With a resolvable patient email, one email POST happens per due
tier. -/
theorem collect_tiers_email_length_some (w : World) (db : Database) (c : Clock)
    (a : Appointment) (em : String)
    (hm : lookupAssoc db.authEmails a.patient_id = some em) (hne : em ≠ "") :
    ∀ ts : List Nat,
      (collectOut (processPair w db c a) ts).emailAttempts.length
        = (ts.filter (fun t => tierDue t (minutesUntilAppointment a c))).length
  | [] => rfl
  | t :: r => by
      by_cases h : tierDue t (minutesUntilAppointment a c) = true <;>
        simp [collectOut_cons, append_emailAttempts, processPair, h, hm, hne,
          List.filter_cons, collect_tiers_email_length_some w db c a em hm hne r,
          PairOutput.empty]

/-- An appointment with no due tier contributes nothing. -/
theorem collect_tiers_not_due (w : World) (db : Database) (c : Clock)
    (a : Appointment) :
    ∀ ts : List Nat,
      ts.filter (fun t => tierDue t (minutesUntilAppointment a c)) = [] →
      collectOut (processPair w db c a) ts = PairOutput.empty
  | [], _ => rfl
  | t :: r, h => by
      by_cases hd : tierDue t (minutesUntilAppointment a c) = true
      · simp [List.filter_cons, hd] at h
      · have h' : r.filter (fun t => tierDue t (minutesUntilAppointment a c)) = [] := by
          simpa [List.filter_cons, hd] using h
        simp [collectOut_cons, processPair, hd,
          collect_tiers_not_due w db c a r h', PairOutput.append, PairOutput.empty]

/-- Over the candidate list, the `sentReminders` count is the total
number of due (appointment, tier) pairs. -/
theorem sum_sent_length (w : World) (db : Database) (c : Clock) :
    ∀ l : List Appointment,
      (collectOut (processAppointment w db c) l).sent.length
        = (l.map (fun a => (reminderMinutes.filter
            (fun t => tierDue t (minutesUntilAppointment a c))).length)).sum
  | [] => rfl
  | a :: r => by
      simp [collectOut_cons, append_sent, sum_sent_length w db c r,
        processAppointment, collect_tiers_sent_length]

/-- C6 (amended): on a successful run the handler returns HTTP 200 with
body `{ success: true, remindersSent: n }` where n is the number of due
(appointment, tier) pairs among the candidates — counted whether or not
the notification insert or the email dispatch succeeded; per-item
failures are only logged, never returned. -/
theorem success_response_counts (w : World) (c : Clock) (db : Database)
    (hf : db.fetchError = none) :
    (checkAppointmentReminders w c db).status = 200
    ∧ (checkAppointmentReminders w c db).body
        = Body.success (((candidatesQuery c db).map (fun a =>
            (reminderMinutes.filter
              (fun t => tierDue t (minutesUntilAppointment a c))).length)).sum) := by
  refine ⟨by simp [checkAppointmentReminders, hf], ?_⟩
  simp only [checkAppointmentReminders, hf]
  rw [sum_sent_length w db c (candidatesQuery c db)]

/-- C6 witness: concrete successful run with one due pair. -/
theorem success_response_counts_witness :
    dbEx.fetchError = none
    ∧ ((checkAppointmentReminders wTrue cEx dbEx).status = 200
       ∧ (checkAppointmentReminders wTrue cEx dbEx).body
           = Body.success (((candidatesQuery cEx dbEx).map (fun a =>
               (reminderMinutes.filter
                 (fun t => tierDue t (minutesUntilAppointment a cEx))).length)).sum)) :=
  ⟨rfl, success_response_counts wTrue cEx dbEx rfl⟩

/-- C6 counterexample: with every insert rejected by the store, the
handler still reports `remindersSent = 1` while zero notification rows
were created, and the success body carries no per-item failures. -/
theorem success_count_counterexample :
    (checkAppointmentReminders wNoInsert cEx dbEx).status = 200
    ∧ (checkAppointmentReminders wNoInsert cEx dbEx).body = Body.success 1
    ∧ (checkAppointmentReminders wNoInsert cEx dbEx).db.notifications = [] := by
  refine ⟨rfl, rfl, rfl⟩

/-- C7: with three candidates of which exactly one matches exactly one
tier window (email resolvable, insert accepted), the run performs
exactly one insert call, creates exactly one notification row, attempts
exactly one email POST, and pushes exactly one `sentReminders` entry —
each due (appointment, tier) pair is processed exactly once. -/
theorem due_pair_processed_once (w : World) (c : Clock) (db : Database)
    (a1 a2 a3 : Appointment) (t0 : Nat) (em : String)
    (hf : db.fetchError = none)
    (hc : candidatesQuery c db = [a1, a2, a3])
    (h1 : reminderMinutes.filter
        (fun t => tierDue t (minutesUntilAppointment a1 c)) = [t0])
    (h2 : reminderMinutes.filter
        (fun t => tierDue t (minutesUntilAppointment a2 c)) = [])
    (h3 : reminderMinutes.filter
        (fun t => tierDue t (minutesUntilAppointment a3 c)) = [])
    (hm : lookupAssoc db.authEmails a1.patient_id = some em)
    (hne : em ≠ "")
    (hi : w.insertOk a1.id t0 = true) :
    (checkAppointmentReminders w c db).out.insertAttempts.length = 1
    ∧ (checkAppointmentReminders w c db).out.newNotifs.length = 1
    ∧ (checkAppointmentReminders w c db).out.emailAttempts.length = 1
    ∧ (checkAppointmentReminders w c db).out.sent.length = 1 := by
  simp only [checkAppointmentReminders, hf, hc, processAppointment,
    collectOut_cons, collectOut_nil,
    append_insertAttempts, append_newNotifs, append_emailAttempts, append_sent,
    List.length_append,
    collect_tiers_not_due w db c a2 reminderMinutes h2,
    collect_tiers_not_due w db c a3 reminderMinutes h3,
    collect_tiers_sent_length, collect_tiers_insert_length,
    collect_tiers_newNotifs_length,
    collect_tiers_email_length_some w db c a1 em hm hne,
    h1, hi, List.filter_cons, List.filter_nil, PairOutput.empty]
  simp

/-- C7 witness: three concrete candidates, only the first due. -/
theorem due_pair_processed_once_witness :
    candidatesQuery cEx dbEx3 = [apt1, apt2, apt3]
    ∧ ((checkAppointmentReminders wTrue cEx dbEx3).out.insertAttempts.length = 1
       ∧ (checkAppointmentReminders wTrue cEx dbEx3).out.newNotifs.length = 1
       ∧ (checkAppointmentReminders wTrue cEx dbEx3).out.emailAttempts.length = 1
       ∧ (checkAppointmentReminders wTrue cEx dbEx3).out.sent.length = 1) :=
  ⟨rfl, due_pair_processed_once wTrue cEx dbEx3 apt1 apt2 apt3 60
    "alice@example.com" rfl rfl rfl rfl rfl rfl (by decide) rfl⟩

/-- C4 (amended): for a due pair whose patient email cannot be
resolved, the email POST is skipped but the notification insert is
still attempted; unresolved patient or doctor display names do not skip
dispatch — they fall back to "Patient" / "Doctor". -/
theorem unresolved_email_skips_dispatch (w : World) (db : Database)
    (c : Clock) (a : Appointment) (t : Nat)
    (hdue : tierDue t (minutesUntilAppointment a c) = true)
    (hm : lookupAssoc db.authEmails a.patient_id = none) :
    (processPair w db c a t).emailAttempts = []
    ∧ (processPair w db c a t).insertAttempts
        = [mkNotification a t (jsOr (lookupAssoc db.doctors a.doctor_id) "Doctor")] := by
  simp [processPair, hdue, hm]

/-- C4 witness: concrete due pair with unresolvable email. -/
theorem unresolved_email_skips_dispatch_witness :
    (tierDue 60 (minutesUntilAppointment apt1 cEx) = true
     ∧ lookupAssoc dbNoEmail.authEmails apt1.patient_id = none)
    ∧ ((processPair wTrue dbNoEmail cEx apt1 60).emailAttempts = []
       ∧ (processPair wTrue dbNoEmail cEx apt1 60).insertAttempts
           = [mkNotification apt1 60
               (jsOr (lookupAssoc dbNoEmail.doctors apt1.doctor_id) "Doctor")]) :=
  ⟨⟨rfl, rfl⟩,
   unresolved_email_skips_dispatch wTrue dbNoEmail cEx apt1 60 rfl rfl⟩

/-- C4 counterexample: for a due pair whose patient and doctor display
names both fail to resolve but whose email resolves, the email dispatch
is still attempted with fallback names — it is not skipped as the claim
states. -/
theorem name_fallback_counterexample :
    lookupAssoc dbNoNames.profiles apt1.patient_id = none
    ∧ lookupAssoc dbNoNames.doctors apt1.doctor_id = none
    ∧ tierDue 60 (minutesUntilAppointment apt1 cEx) = true
    ∧ (checkAppointmentReminders wTrue cEx dbNoNames).out.emailAttempts
        = [mkEmailPayload apt1 60 "alice@example.com" "Patient" "Doctor"] :=
  ⟨rfl, rfl, rfl, rfl⟩

/-- Rows passed to the notification insert always reference the
processed appointment. -/
theorem processPair_insertAttempts_related (w : World) (db : Database)
    (c : Clock) (a : Appointment) (t : Nat) (n : Notification) :
    n ∈ (processPair w db c a t).insertAttempts → n.related_id = a.id := by
  by_cases h : tierDue t (minutesUntilAppointment a c) = true <;>
    simp [processPair, h, PairOutput.empty]
  rintro rfl
  rfl

/-- C5 (amended): the candidate set is exactly the appointments whose
date equals the UTC calendar date obtained from `toISOString` — not the
server-local calendar date — and whose status is `scheduled`; every
notification insert of a run references a candidate, so appointments on
other (UTC) dates or with status `completed`/`cancelled` are never
evaluated for reminders. -/
theorem candidates_utc_scheduled (w : World) (c : Clock) (db : Database)
    (a : Appointment) (n : Notification) :
    (a ∈ candidatesQuery c db ↔
      a ∈ db.appointments ∧ a.appointment_date = c.utcDate ∧ a.status = "scheduled")
    ∧ (n ∈ (checkAppointmentReminders w c db).out.insertAttempts →
        n.related_id ∈ (candidatesQuery c db).map (fun x => x.id)) := by
  constructor
  · simp [candidatesQuery, List.mem_filter, and_assoc]
  · intro hn
    cases hf : db.fetchError with
    | some msg => simp [checkAppointmentReminders, hf, PairOutput.empty] at hn
    | none =>
      simp only [checkAppointmentReminders, hf] at hn
      rcases mem_collectOut_proj PairOutput.insertAttempts append_insertAttempts
        rfl _ n (candidatesQuery c db) hn with ⟨a', ha', hna⟩
      rcases mem_collectOut_proj PairOutput.insertAttempts append_insertAttempts
        rfl _ n reminderMinutes hna with ⟨t, _, hnt⟩
      rw [List.mem_map]
      exact ⟨a', ha', (processPair_insertAttempts_related w db c a' t n hnt).symm⟩

/-- C5 witness: the single insert of a concrete run references the
single candidate. -/
theorem candidates_utc_scheduled_witness :
    mkNotification apt1 60 "Bob"
        ∈ (checkAppointmentReminders wTrue cEx dbEx).out.insertAttempts
    ∧ (mkNotification apt1 60 "Bob").related_id
        ∈ (candidatesQuery cEx dbEx).map (fun x => x.id) :=
  ⟨by decide, (candidates_utc_scheduled wTrue cEx dbEx apt1
    (mkNotification apt1 60 "Bob")).2 (by decide)⟩

/-- C5 counterexample: just before UTC midnight, `todayDate` from
`toISOString` is 2026-01-02 while the server-local date is still
2026-01-01; `aptLocal` is scheduled on the current local date yet is
not a candidate, so the candidate set differs from the local-date set
the claim describes. -/
theorem local_date_counterexample :
    aptLocal.status = "scheduled"
    ∧ aptLocal.appointment_date = cTz.localDate
    ∧ aptLocal ∈ dbTz.appointments
    ∧ candidatesQuery cTz dbTz = []
    ∧ candidatesSpecLocal cTz dbTz = [aptLocal] :=
  ⟨rfl, rfl, by simp [dbTz], rfl, rfl⟩

/-- C8: an immediate second run with the same clock, world and store
contents appends the same batch of new notification rows again — the
given due pair's row is in that batch, so the two runs together produce
two copies of it (no cross-run de-duplication). -/
theorem double_run_duplicates (w : World) (c : Clock) (db : Database)
    (a : Appointment) (t : Nat)
    (hf : db.fetchError = none)
    (ha : a ∈ candidatesQuery c db)
    (ht : t ∈ reminderMinutes)
    (hdue : tierDue t (minutesUntilAppointment a c) = true)
    (hi : w.insertOk a.id t = true) :
    (checkAppointmentReminders w c
        (checkAppointmentReminders w c db).db).db.notifications
      = db.notifications ++ (checkAppointmentReminders w c db).out.newNotifs
          ++ (checkAppointmentReminders w c db).out.newNotifs
    ∧ mkNotification a t (jsOr (lookupAssoc db.doctors a.doctor_id) "Doctor")
        ∈ (checkAppointmentReminders w c db).out.newNotifs := by
  constructor
  · simp only [checkAppointmentReminders, hf]
    rfl
  · simp only [checkAppointmentReminders, hf]
    refine mem_collectOut_of_mem PairOutput.newNotifs append_newNotifs _ _ a
      (candidatesQuery c db) ha ?_
    refine mem_collectOut_of_mem PairOutput.newNotifs append_newNotifs _ _ t
      reminderMinutes ht ?_
    simp [processPair, hdue, hi]

/-- C8 witness: two successive concrete runs double the row for the due
pair. -/
theorem double_run_duplicates_witness :
    (dbEx.fetchError = none ∧ apt1 ∈ candidatesQuery cEx dbEx
      ∧ (60 : Nat) ∈ reminderMinutes
      ∧ tierDue 60 (minutesUntilAppointment apt1 cEx) = true
      ∧ wTrue.insertOk apt1.id 60 = true)
    ∧ ((checkAppointmentReminders wTrue cEx
          (checkAppointmentReminders wTrue cEx dbEx).db).db.notifications
        = dbEx.notifications
            ++ (checkAppointmentReminders wTrue cEx dbEx).out.newNotifs
            ++ (checkAppointmentReminders wTrue cEx dbEx).out.newNotifs
       ∧ mkNotification apt1 60
           (jsOr (lookupAssoc dbEx.doctors apt1.doctor_id) "Doctor")
           ∈ (checkAppointmentReminders wTrue cEx dbEx).out.newNotifs) :=
  ⟨⟨rfl, by decide, by decide, rfl, rfl⟩,
   double_run_duplicates wTrue cEx dbEx apt1 60 rfl (by decide)
     (by decide) rfl rfl⟩

/-- C1 witness: the 60-minute tier at concrete `minutesUntil` values. -/
theorem tier_window_check_witness :
    tierDue 60 (59 : Int) = true ∧ tierDue 60 (62 : Int) = false :=
  ⟨((tier_window_check apt1 cEx 60).2 59).mpr (by decide), by decide⟩

/-- C3 witness: a concrete run inserts the same rows whether the email
POST succeeds or throws, and attempts the same email POSTs whether the
store accepts or rejects the inserts. -/
theorem dispatch_failure_isolation_witness :
    (checkAppointmentReminders ⟨wTrue.emailResult, wTrue.insertOk⟩ cEx dbEx).out.newNotifs
        = (checkAppointmentReminders ⟨fun _ _ => EmailResult.exn, wTrue.insertOk⟩
            cEx dbEx).out.newNotifs
    ∧ (checkAppointmentReminders ⟨wTrue.emailResult, wTrue.insertOk⟩ cEx
          dbEx).out.emailAttempts
        = (checkAppointmentReminders ⟨fun _ _ => EmailResult.exn, wNoInsert.insertOk⟩
            cEx dbEx).out.emailAttempts :=
  ⟨(dispatch_failure_isolation cEx dbEx wTrue.emailResult
      (fun _ _ => EmailResult.exn) wTrue.insertOk wNoInsert.insertOk).1,
   (dispatch_failure_isolation cEx dbEx wTrue.emailResult
      (fun _ _ => EmailResult.exn) wTrue.insertOk wNoInsert.insertOk).2.2.1⟩

/-- C9 witness: the frame conditions at a concrete run. -/
theorem scheduler_store_frame_witness :
    (checkAppointmentReminders wTrue cEx dbEx).db.appointments = dbEx.appointments
    ∧ (checkAppointmentReminders wTrue cEx dbEx).db.profiles = dbEx.profiles
    ∧ (checkAppointmentReminders wTrue cEx dbEx).db.doctors = dbEx.doctors
    ∧ (checkAppointmentReminders wTrue cEx dbEx).db.authEmails = dbEx.authEmails
    ∧ (checkAppointmentReminders wTrue cEx dbEx).db.fetchError = dbEx.fetchError
    ∧ (checkAppointmentReminders wTrue cEx dbEx).db.notifications
        = dbEx.notifications ++ (checkAppointmentReminders wTrue cEx dbEx).out.newNotifs :=
  scheduler_store_frame wTrue cEx dbEx
